import Mathlib

/-!
# WebSocket verification helpers — shallow embedding

Shallow embedding of `WebSocketHelpers` (src/unnamed/part_002): the tracker
record, the `page.on("websocket", ...)` listener installed by
`setupWebSocketListener` (modelled as a transition function over an explicit
event trace), the pure verification queries `verifyConnectivity`,
`verifyPerformance`, `verifyIntegrity`, `verifyClosure`, and the decision
logic of `waitForWebSocketResponse` and `waitForWebSocketConnection`.

Timestamps (`Date.now()` values) are modelled as `Int`, matching JavaScript
signed arithmetic on time differences.  WebSocket connection handles are
modelled by numeric identifiers.  Frame payloads are modelled as the strings
`payloadToString` yields.  `JSON.parse` success is modelled by an oracle
parameter `jsonParses : String → Bool`; the only property of the real
`JSON.parse` used in proofs is that it rejects the empty string.
-/

namespace WebSocketHelpers

/-- Structure `WebSocketFrame` of src/unnamed/part_002: payload string plus the
`Date.now()` timestamp recorded when the frame was observed. -/
structure WebSocketFrame where
  payload : String
  timestamp : Int
deriving Repr, DecidableEq

/-- Structure `WebSocketTracker` of src/unnamed/part_002.  The Playwright `WebSocket`
handle is modelled by its numeric connection identifier. -/
structure WebSocketTracker where
  connection : Option Nat
  sentFrames : List WebSocketFrame
  receivedFrames : List WebSocketFrame
  connectionStartTime : Int
  connectionEstablishedTime : Int
  connectionClosedTime : Int
  url : Option String
  isClosed : Bool
deriving Repr, DecidableEq

/-- Function `createTracker` of src/unnamed/part_002: the fresh all-zero tracker. -/
def createTracker : WebSocketTracker :=
  { connection := none
    sentFrames := []
    receivedFrames := []
    connectionStartTime := 0
    connectionEstablishedTime := 0
    connectionClosedTime := 0
    url := none
    isClosed := false }

/-- JavaScript substring containment `url.includes(needle)`, checked over
character lists. -/
def strIncludes (hay needle : String) : Bool :=
  hay.toList.tails.any (fun t => needle.toList.isPrefixOf t)

/-- The `urlFilter` argument: either a substring string or a RegExp.  A RegExp
is modelled by its `test` function. -/
inductive UrlFilter where
  | str (s : String)
  | regex (test : String → Bool)

/-- The filter check of src/unnamed/part_002 lines 64-67:
`typeof urlFilter === "string" ? wsUrl.includes(urlFilter) : urlFilter.test(wsUrl)`. -/
def UrlFilter.matches : UrlFilter → String → Bool
  | .str s, wsUrl => strIncludes wsUrl s
  | .regex t, wsUrl => t wsUrl

/-- Whether an optional filter accepts a URL: an absent filter accepts
everything (the filter block is skipped entirely). -/
def filterAccepts (urlFilter : Option UrlFilter) (wsUrl : String) : Bool :=
  match urlFilter with
  | some f => f.matches wsUrl
  | none => true

/-- Return shape of `verifyConnectivity` (src/unnamed/part_002 lines 209-214). -/
structure ConnectivityResult where
  success : Bool
  connectionTime : Int
  url : Option String
  failureReason : Option String
deriving Repr, DecidableEq

/-- Function `verifyConnectivity` of src/unnamed/part_002 lines 209-234. -/
def verifyConnectivity (tracker : WebSocketTracker) : ConnectivityResult :=
  let connectionTime :=
    tracker.connectionEstablishedTime - tracker.connectionStartTime
  let success :=
    tracker.connection.isSome && tracker.url.isSome && decide (connectionTime > 0)
  { success := success
    connectionTime := connectionTime
    url := tracker.url
    failureReason :=
      if success then none else some "WebSocket connection not established" }

/-- Return shape of `verifyPerformance` (src/unnamed/part_002 lines 242-247). -/
structure PerformanceResult where
  success : Bool
  latency : Int
  threshold : Int
  failureReason : Option String
deriving Repr, DecidableEq

/-- The `WS_LATENCY_THRESHOLD_MS` module constant (src/unnamed/part_002 lines
11-14): the environment override when set, else 300.  The environment value is
modelled as an already-parsed optional integer; `parseInt` string handling is
outside the embedding. -/
def WS_LATENCY_THRESHOLD_MS (env : Option Int) : Int :=
  env.getD 300

/-- Function `verifyPerformance` of src/unnamed/part_002 lines 236-279, with the
threshold argument made explicit (the TypeScript default parameter is applied
by `verifyPerformanceDefault` below). -/
def verifyPerformance (tracker : WebSocketTracker) (initialFrameCount : Nat)
    (sendTime responseTime threshold : Int) : PerformanceResult :=
  let latency := responseTime - sendTime
  let totalFrames := tracker.sentFrames.length + tracker.receivedFrames.length
  let newFramesDetected := decide (totalFrames > initialFrameCount)
  let success := decide (latency < threshold) && newFramesDetected
  { success := success
    latency := latency
    threshold := threshold
    failureReason :=
      if success then none
      else some (s!"Latency {latency}ms >= {threshold}ms" ++
        (if !newFramesDetected then "; No new frames detected" else "")) }

/-- Default-threshold application by the wrapper (src/unnamed/part_002 lines
241, 357-370): an omitted per-call threshold falls back to
`WS_LATENCY_THRESHOLD_MS`. -/
def verifyPerformanceDefault (env : Option Int) (tracker : WebSocketTracker)
    (initialFrameCount : Nat) (sendTime responseTime : Int)
    (threshold : Option Int) : PerformanceResult :=
  verifyPerformance tracker initialFrameCount sendTime responseTime
    (threshold.getD (WS_LATENCY_THRESHOLD_MS env))

/-- Return shape of `verifyIntegrity` (src/unnamed/part_002 lines 281-287). -/
structure IntegrityResult where
  success : Bool
  validFrames : Nat
  invalidFrames : Nat
  totalFrames : Nat
  failureReason : Option String
deriving Repr, DecidableEq

/-- The per-frame validity test of src/unnamed/part_002 lines 291-302: the
`try JSON.parse` branch counts the frame valid; the `catch` branch counts it
valid iff the payload is a non-empty string. -/
def frameValid (jsonParses : String → Bool) (payload : String) : Bool :=
  jsonParses payload || decide (payload.length > 0)

/-- Function `verifyIntegrity` of src/unnamed/part_002 lines 281-320.  The two loop
counters are the counts of valid and invalid received frames. -/
def verifyIntegrity (jsonParses : String → Bool)
    (tracker : WebSocketTracker) : IntegrityResult :=
  let validFrames :=
    tracker.receivedFrames.countP (fun f => frameValid jsonParses f.payload)
  let invalidFrames :=
    tracker.receivedFrames.countP (fun f => !frameValid jsonParses f.payload)
  let success := decide (validFrames > 0)
  let totalFrames := tracker.receivedFrames.length
  { success := success
    validFrames := validFrames
    invalidFrames := invalidFrames
    totalFrames := totalFrames
    failureReason :=
      if success then none
      else some s!"No valid frames found ({totalFrames} total)" }

/-- Return shape of `verifyClosure` (src/unnamed/part_002 lines 426-431). -/
structure ClosureResult where
  success : Bool
  isClosed : Bool
  closureTime : Int
  failureReason : Option String
deriving Repr, DecidableEq

/-- Function `verifyClosure` of src/unnamed/part_002 lines 426-449.  The Playwright
live `isClosed()` predicate of the handle is modelled by the oracle
`connIsClosed` over connection identifiers. -/
def verifyClosure (connIsClosed : Nat → Bool)
    (tracker : WebSocketTracker) : ClosureResult :=
  let isClosed :=
    tracker.isClosed ||
      (match tracker.connection with
       | some id => connIsClosed id
       | none => false)
  { success := isClosed
    isClosed := isClosed
    closureTime := tracker.connectionClosedTime
    failureReason :=
      if isClosed then none else some "WebSocket connection is still open" }

/-- One transport-layer notification delivered to the listener installed by
`setupWebSocketListener`: a new connection opening (the `page.on("websocket")`
callback firing), or a `framereceived` / `framesent` / `close` event of a
connection.  Each event carries the connection identifier and the
`Date.now()` value at delivery. -/
inductive WsEvent where
  | socketOpened (id : Nat) (wsUrl : String) (time : Int)
  | frameReceived (id : Nat) (payload : String) (time : Int)
  | frameSent (id : Nat) (payload : String) (time : Int)
  | close (id : Nat) (time : Int)
deriving Repr, DecidableEq

/-- The connection identifier an event belongs to. -/
def WsEvent.connId : WsEvent → Nat
  | .socketOpened id _ _ => id
  | .frameReceived id _ _ => id
  | .frameSent id _ _ => id
  | .close id _ => id

/-- State of the listener: the shared tracker plus the set (list) of
connections whose `framereceived` / `framesent` / `close` handlers were
attached by the `page.on("websocket")` callback.  Playwright fires the
`websocket` event once per connection, so attachment is recorded per
identifier. -/
structure MonitorState where
  tracker : WebSocketTracker
  attachedConnections : List Nat
deriving Repr, DecidableEq

/-- The state `setupWebSocketMonitoring` starts from (src/unnamed/part_002
lines 331-337): a fresh tracker, no handlers attached. -/
def initialMonitorState : MonitorState :=
  { tracker := createTracker, attachedConnections := [] }

/-- The listener installed by `setupWebSocketListener` (src/unnamed/part_002
lines 53-110) as a transition on `MonitorState`:

* `socketOpened`: the `page.on("websocket")` callback.  A non-matching URL
  returns with no side effects (lines 63-77).  Otherwise, if no connection is
  bound yet, this one is bound (lines 79-86); in either case the frame and
  close handlers are attached to the connection (lines 88-108).
* `frameReceived` / `frameSent`: the handlers of lines 88-100 push a frame
  onto the tracker — they run only for connections they were attached to.
* `close`: the handler of lines 102-108 sets `connectionClosedTime` to the
  delivery time and `isClosed` to `true`, unconditionally. -/
def listenerStep (urlFilter : Option UrlFilter) (s : MonitorState) :
    WsEvent → MonitorState
  | .socketOpened id wsUrl time =>
      if filterAccepts urlFilter wsUrl then
        let t := s.tracker
        let t :=
          if t.connection.isNone then
            { t with connectionEstablishedTime := time
                     connection := some id
                     url := some wsUrl }
          else t
        { tracker := t
          attachedConnections := s.attachedConnections ++ [id] }
      else s
  | .frameReceived id payload time =>
      if s.attachedConnections.contains id then
        { s with tracker :=
            { s.tracker with receivedFrames :=
                s.tracker.receivedFrames ++ [⟨payload, time⟩] } }
      else s
  | .frameSent id payload time =>
      if s.attachedConnections.contains id then
        { s with tracker :=
            { s.tracker with sentFrames :=
                s.tracker.sentFrames ++ [⟨payload, time⟩] } }
      else s
  | .close id time =>
      if s.attachedConnections.contains id then
        { s with tracker :=
            { s.tracker with connectionClosedTime := time
                             isClosed := true } }
      else s

/-- Running the listener over a whole delivery trace. -/
def processTrace (urlFilter : Option UrlFilter) (s : MonitorState)
    (trace : List WsEvent) : MonitorState :=
  trace.foldl (listenerStep urlFilter) s

/-- The decision logic of `waitForWebSocketResponse` (src/unnamed/part_002
lines 169-207) once its polls have finished.  `tracker` is the tracker at
decision time (frames appended during the wait included),
`initialReceivedCount` is `tracker.receivedFrames.length` captured at call
entry (line 174), `now` is `Date.now()` at line 206.  The two `expect.poll`
waits only suspend; the returned value is computed by lines 195-206.  The
tracker is returned unchanged alongside the timestamp: the function performs
no assignment to any tracker field. -/
def waitForWebSocketResponse (tracker : WebSocketTracker)
    (initialReceivedCount : Nat) (now : Int) : Int × WebSocketTracker :=
  if h : initialReceivedCount < tracker.receivedFrames.length then
    ((tracker.receivedFrames.get ⟨initialReceivedCount, h⟩).timestamp, tracker)
  else if h2 : 0 < tracker.receivedFrames.length then
    ((tracker.receivedFrames.get
        ⟨tracker.receivedFrames.length - 1, by omega⟩).timestamp, tracker)
  else
    (now, tracker)

/-- The fresh-wait path of `waitForWebSocketConnection` (src/unnamed/part_002
lines 139-166): `page.waitForEvent("websocket", ...)` with the filter
predicate — the first upcoming candidate accepted by the filter — followed by
the conditional bind of lines 160-164.  `none` models the timeout rejection. -/
def waitFreshConnection (tracker : WebSocketTracker)
    (urlFilter : Option UrlFilter) (upcoming : List (Nat × String))
    (establishTime : Int) : Option ((Nat × String) × WebSocketTracker) :=
  match upcoming.find? (fun c => filterAccepts urlFilter c.2) with
  | some ws =>
      some (ws,
        if tracker.connection.isNone then
          { tracker with connection := some ws.1
                         url := some ws.2
                         connectionEstablishedTime := establishTime }
        else tracker)
  | none => none

/-- The resolution step of `waitForWebSocketConnection` (src/unnamed/part_002
lines 122-166) after `connectionStartTime` was stamped: the fast path returns
the already-bound connection when it exists and its URL passes the filter
(absent filter accepts anything, lines 123-137); otherwise the fresh wait of
lines 139-166 runs. -/
def resolveConnection (tracker : WebSocketTracker)
    (urlFilter : Option UrlFilter) (upcoming : List (Nat × String))
    (establishTime : Int) : Option ((Nat × String) × WebSocketTracker) :=
  match tracker.connection, tracker.url with
  | some cid, some u =>
      if filterAccepts urlFilter u then some ((cid, u), tracker)
      else waitFreshConnection tracker urlFilter upcoming establishTime
  | _, _ => waitFreshConnection tracker urlFilter upcoming establishTime

/-- Function `waitForWebSocketConnection` (src/unnamed/part_002 lines
112-167).  `now` is `Date.now()` at line 119; `upcoming` is the stream of
connection candidates the page would deliver while waiting, as
(identifier, URL) pairs in delivery order; `establishTime` is `Date.now()`
at line 163. -/
def waitForWebSocketConnection (tracker : WebSocketTracker) (now : Int)
    (urlFilter : Option UrlFilter) (upcoming : List (Nat × String))
    (establishTime : Int) : Option ((Nat × String) × WebSocketTracker) :=
  resolveConnection
    (if tracker.connectionStartTime = 0 then
      { tracker with connectionStartTime := now }
    else tracker)
    urlFilter upcoming establishTime

/-- One invocation of a handle method `verifyConnectivity` /
`verifyPerformance` / `verifyIntegrity` / `verifyClosure`
(src/unnamed/part_002 lines 354-376), with its arguments. -/
inductive VerifyQuery where
  | connectivity
  | performance (initialFrameCount : Nat) (sendTime responseTime threshold : Int)
  | integrity
  | closure

/-- The value returned by one verification query. -/
inductive VerifyOutcome where
  | connectivity (r : ConnectivityResult)
  | performance (r : PerformanceResult)
  | integrity (r : IntegrityResult)
  | closure (r : ClosureResult)
deriving Repr, DecidableEq

/-- Execution of one verification query against the tracker, in a
state-threading form: the tracker handed back is the tracker the source
leaves behind — the four query bodies (src/unnamed/part_002 lines 209-320 and
426-449) contain no assignment to any tracker field, so it is returned
unchanged. -/
def runVerify (jsonParses : String → Bool) (connIsClosed : Nat → Bool)
    (q : VerifyQuery) (tracker : WebSocketTracker) :
    VerifyOutcome × WebSocketTracker :=
  match q with
  | .connectivity => (.connectivity (verifyConnectivity tracker), tracker)
  | .performance k sendTime responseTime threshold =>
      (.performance (verifyPerformance tracker k sendTime responseTime threshold),
        tracker)
  | .integrity => (.integrity (verifyIntegrity jsonParses tracker), tracker)
  | .closure => (.closure (verifyClosure connIsClosed tracker), tracker)

/-- Detects an opening notification of connection `c` whose URL passes
filter `f`. -/
def opensMatching (f : UrlFilter) (c : Nat) : WsEvent → Bool
  | .socketOpened id wsUrl _ => id == c && f.matches wsUrl
  | _ => false

/-! ## Helper lemmas -/

lemma string_data_eq_nil_iff (s : String) : s.data = [] ↔ s = "" :=
  ⟨fun h => String.ext h, fun h => by rw [h]⟩

lemma string_length_pos_iff (s : String) : 0 < s.length ↔ s ≠ "" := by
  have hlen : s.length = s.data.length := rfl
  rw [hlen, List.length_pos, Ne, string_data_eq_nil_iff]

/-! ## C3: the returned failureReason of verifyPerformance -/

/-- C3 (code bug exhibit): when `verifyPerformance` fails only because no new
frames were detected — here latency 100ms, threshold 300ms, zero frames
against a baseline of 0 — the returned `failureReason` nevertheless asserts
`Latency 100ms >= 300ms`, contradicting the spec requirement that only the
sub-conditions that actually failed be reported.  (The `console.error` branch
of the same function builds the correct reason list; the returned string does
not.) -/
theorem C3_failureReason_misreports_latency :
    (verifyPerformance createTracker 0 1000 1100 300).success = false ∧
    (verifyPerformance createTracker 0 1000 1100 300).latency = 100 ∧
    (verifyPerformance createTracker 0 1000 1100 300).latency <
      (verifyPerformance createTracker 0 1000 1100 300).threshold ∧
    (verifyPerformance createTracker 0 1000 1100 300).failureReason =
      some "Latency 100ms >= 300ms; No new frames detected" := by
  refine ⟨rfl, rfl, by decide, ?_⟩
  decide

/-! ## C4: verifyPerformance success condition -/

/-- C4: `verifyPerformance` succeeds iff the latency `responseTime - sendTime`
is strictly below the threshold (the per-call threshold when supplied, else
the `WS_LATENCY_THRESHOLD_MS` value, which is 300 without an environment
override) and the current total frame count strictly exceeds the
`initialFrameCount` baseline; the reported latency is exactly
`responseTime - sendTime`. -/
theorem C4_verifyPerformance_success_iff (env : Option Int)
    (tracker : WebSocketTracker) (initialFrameCount : Nat)
    (sendTime responseTime : Int) (thresholdOpt : Option Int) :
    ((verifyPerformanceDefault env tracker initialFrameCount sendTime
        responseTime thresholdOpt).success = true ↔
      (responseTime - sendTime < thresholdOpt.getD (WS_LATENCY_THRESHOLD_MS env) ∧
        initialFrameCount <
          tracker.sentFrames.length + tracker.receivedFrames.length)) ∧
    (verifyPerformanceDefault env tracker initialFrameCount sendTime
        responseTime thresholdOpt).latency = responseTime - sendTime ∧
    (verifyPerformanceDefault env tracker initialFrameCount sendTime
        responseTime thresholdOpt).threshold =
      thresholdOpt.getD (WS_LATENCY_THRESHOLD_MS env) ∧
    WS_LATENCY_THRESHOLD_MS none = 300 := by
  refine ⟨?_, rfl, rfl, rfl⟩
  simp [verifyPerformanceDefault, verifyPerformance]

/-! ## C5: verifyConnectivity success condition -/

/-- C5: `verifyConnectivity` succeeds iff a connection is bound, its URL is
known and `connectionEstablishedTime - connectionStartTime > 0`; it returns
that difference as `connectionTime`; when no connection was ever attached the
query fails with failure reason `WebSocket connection not established`. -/
theorem C5_verifyConnectivity_success_iff (tracker : WebSocketTracker) :
    ((verifyConnectivity tracker).success = true ↔
      (tracker.connection.isSome = true ∧ tracker.url.isSome = true ∧
        0 < tracker.connectionEstablishedTime - tracker.connectionStartTime)) ∧
    (verifyConnectivity tracker).connectionTime =
      tracker.connectionEstablishedTime - tracker.connectionStartTime ∧
    (tracker.connection = none →
      (verifyConnectivity tracker).success = false ∧
      (verifyConnectivity tracker).failureReason =
        some "WebSocket connection not established") := by
  refine ⟨?_, rfl, ?_⟩
  · simp [verifyConnectivity, and_assoc]
  · intro hnone
    simp [verifyConnectivity, hnone]

/-- Witness for C5: on a fresh tracker the query fails with the documented
failure reason. -/
theorem C5_witness :
    (verifyConnectivity createTracker).success = false ∧
    (verifyConnectivity createTracker).failureReason =
      some "WebSocket connection not established" :=
  (C5_verifyConnectivity_success_iff createTracker).2.2 rfl

/-! ## C9: verification queries are pure -/

/-- C9: every verification query is a pure function of the tracker state: it
hands the tracker back unchanged, and running the same query again on the
state it left produces the identical result. -/
theorem C9_verify_queries_pure (jsonParses : String → Bool)
    (connIsClosed : Nat → Bool) (q : VerifyQuery)
    (tracker : WebSocketTracker) :
    (runVerify jsonParses connIsClosed q tracker).2 = tracker ∧
    (runVerify jsonParses connIsClosed q
        (runVerify jsonParses connIsClosed q tracker).2).1 =
      (runVerify jsonParses connIsClosed q tracker).1 := by
  cases q <;> exact ⟨rfl, rfl⟩

/-! ## C1: subsequent matching connections -/

/-- C1 (counterexample): with filter `"ws://a"`, connection 1 binds first, yet
after a second matching connection 2 opens, a frame received on connection 2
is appended to the receivedFrames log and the close of connection 2 sets
`isClosed` and `connectionClosedTime` — the subsequent matching connection is
not ignored entirely, contradicting the claim. -/
theorem C1_counterexample :
    processTrace (some (.str "ws://a")) initialMonitorState
        [.socketOpened 1 "ws://a/1" 10, .socketOpened 2 "ws://a/2" 20,
         .frameReceived 2 "hello" 30, .close 2 40] =
      { tracker :=
          { connection := some 1
            sentFrames := []
            receivedFrames := [⟨"hello", 30⟩]
            connectionStartTime := 0
            connectionEstablishedTime := 10
            connectionClosedTime := 40
            url := some "ws://a/1"
            isClosed := true }
        attachedConnections := [1, 2] } := by
  decide

/-- C1 (amended): once a connection is bound, the open notification of a
subsequent matching candidate never re-binds — the tracker is left completely
unchanged by the open itself — but the frame and close handlers are still
attached to the new connection, so its later frame events are appended to the
logs and its close event sets `isClosed` and `connectionClosedTime`. -/
theorem C1_amended_first_match_wins_binding_only (urlFilter : Option UrlFilter)
    (s : MonitorState) (id : Nat) (wsUrl : String) (time : Int)
    (hbound : s.tracker.connection.isSome = true)
    (hmatch : filterAccepts urlFilter wsUrl = true) :
    listenerStep urlFilter s (.socketOpened id wsUrl time) =
      { tracker := s.tracker
        attachedConnections := s.attachedConnections ++ [id] } ∧
    (∀ payload t2,
      listenerStep urlFilter
          { tracker := s.tracker
            attachedConnections := s.attachedConnections ++ [id] }
          (.frameReceived id payload t2) =
        { tracker := { s.tracker with
            receivedFrames := s.tracker.receivedFrames ++ [⟨payload, t2⟩] }
          attachedConnections := s.attachedConnections ++ [id] }) ∧
    (∀ t3,
      listenerStep urlFilter
          { tracker := s.tracker
            attachedConnections := s.attachedConnections ++ [id] }
          (.close id t3) =
        { tracker := { s.tracker with
            connectionClosedTime := t3
            isClosed := true }
          attachedConnections := s.attachedConnections ++ [id] }) := by
  refine ⟨?_, ?_, ?_⟩
  · cases hc : s.tracker.connection with
    | none => rw [hc] at hbound; simp at hbound
    | some c => simp [listenerStep, hmatch, hc]
  · intro payload t2
    simp [listenerStep]
  · intro t3
    simp [listenerStep]

/-- Witness for C1 (amended): a bound tracker, a second matching connection. -/
theorem C1_amended_witness :
    listenerStep (some (.str "ws://a"))
        { tracker := { createTracker with
            connection := some 1
            url := some "ws://a/1"
            connectionEstablishedTime := 10 }
          attachedConnections := [1] }
        (.socketOpened 2 "ws://a/2" 20) =
      { tracker := { createTracker with
          connection := some 1
          url := some "ws://a/1"
          connectionEstablishedTime := 10 }
        attachedConnections := [1, 2] } :=
  (C1_amended_first_match_wins_binding_only (some (.str "ws://a"))
    { tracker := { createTracker with
        connection := some 1
        url := some "ws://a/1"
        connectionEstablishedTime := 10 }
      attachedConnections := [1] }
    2 "ws://a/2" 20 (by decide) (by decide)).1

/-! ## C2: close handling -/

/-- C2 (counterexample): after a close notification at time 20 records
`connectionClosedTime = 20` and `isClosed = true`, a second close
notification delivered to the same tracker at time 25 (here from a second
attached connection, whose close handler feeds the same tracker) overwrites
the recorded timestamp with 25 — it is not left unchanged as the claim
states. -/
theorem C2_counterexample :
    (processTrace none initialMonitorState
        [.socketOpened 1 "ws://a" 10, .socketOpened 2 "ws://b" 15,
         .close 1 20]).tracker.connectionClosedTime = 20 ∧
    (processTrace none initialMonitorState
        [.socketOpened 1 "ws://a" 10, .socketOpened 2 "ws://b" 15,
         .close 1 20]).tracker.isClosed = true ∧
    (processTrace none initialMonitorState
        [.socketOpened 1 "ws://a" 10, .socketOpened 2 "ws://b" 15,
         .close 1 20, .close 2 25]).tracker.connectionClosedTime = 25 ∧
    (25 : Int) ≠ 20 := by
  decide

/-- C2 (amended): every close notification delivered to a connection whose
handlers are attached — a first one or a repeated one alike — overwrites
`connectionClosedTime` with the delivery time of that notification and sets
`isClosed = true`; an already recorded timestamp is preserved only when the
repeated notification carries the same delivery time. -/
theorem C2_amended_close_overwrites (urlFilter : Option UrlFilter)
    (s : MonitorState) (id : Nat) (t : Int)
    (hattached : s.attachedConnections.contains id = true) :
    (listenerStep urlFilter s (.close id t)).tracker.connectionClosedTime = t ∧
    (listenerStep urlFilter s (.close id t)).tracker.isClosed = true := by
  have hmem : id ∈ s.attachedConnections := by simpa using hattached
  simp [listenerStep, hmem]

/-- Witness for C2 (amended): a second close at time 25 on an
already-closed tracker records 25. -/
theorem C2_amended_witness :
    (listenerStep none
        { tracker := { createTracker with
            connection := some 1
            url := some "ws://a"
            connectionEstablishedTime := 10
            connectionClosedTime := 20
            isClosed := true }
          attachedConnections := [1] }
        (.close 1 25)).tracker.connectionClosedTime = 25 :=
  (C2_amended_close_overwrites none
    { tracker := { createTracker with
        connection := some 1
        url := some "ws://a"
        connectionEstablishedTime := 10
        connectionClosedTime := 20
        isClosed := true }
      attachedConnections := [1] }
    1 25 (by decide)).1

/-! ## C10: connectivity success without waitForConnection -/

/-- C10: when a matching connection attaches at wall-clock time `T > 0` on a
fresh tracker and `waitForConnection` is never called, `connectionStartTime`
keeps its initial value 0, so `verifyConnectivity` reports success with
`connectionTime = T`, the absolute attachment timestamp rather than a
measured handshake delta. -/
theorem C10_connectionTime_is_absolute_timestamp (urlFilter : Option UrlFilter)
    (id : Nat) (wsUrl : String) (T : Int)
    (hmatch : filterAccepts urlFilter wsUrl = true) (hT : 0 < T) :
    (listenerStep urlFilter initialMonitorState
        (.socketOpened id wsUrl T)).tracker.connectionStartTime = 0 ∧
    (listenerStep urlFilter initialMonitorState
        (.socketOpened id wsUrl T)).tracker.connectionEstablishedTime = T ∧
    (verifyConnectivity (listenerStep urlFilter initialMonitorState
        (.socketOpened id wsUrl T)).tracker).success = true ∧
    (verifyConnectivity (listenerStep urlFilter initialMonitorState
        (.socketOpened id wsUrl T)).tracker).connectionTime = T := by
  simp [listenerStep, hmatch, initialMonitorState, createTracker,
    verifyConnectivity, hT]

/-- Witness for C10: an unfiltered attachment at time 42. -/
theorem C10_witness :
    (verifyConnectivity (listenerStep none initialMonitorState
        (.socketOpened 1 "ws://app" 42)).tracker).success = true ∧
    (verifyConnectivity (listenerStep none initialMonitorState
        (.socketOpened 1 "ws://app" 42)).tracker).connectionTime = 42 :=
  ⟨(C10_connectionTime_is_absolute_timestamp none 1 "ws://app" 42 rfl
      (by decide)).2.2.1,
   (C10_connectionTime_is_absolute_timestamp none 1 "ws://app" 42 rfl
      (by decide)).2.2.2⟩

/-! ## C6: verifyIntegrity -/

/-- C6: assuming only that the JSON parser rejects the empty string,
`verifyIntegrity` succeeds iff some received frame has a non-empty payload
counted valid (valid meaning: parses as JSON, or failing that is non-empty
text); with zero received frames it reports `success = false` and
`validFrames = 0`; with exactly one received frame whose payload is valid
JSON it reports `success = true`, `validFrames = 1`, `invalidFrames = 0`;
and it always reports `totalFrames` as the number of received frames. -/
theorem C6_verifyIntegrity_success_iff (jsonParses : String → Bool)
    (tracker : WebSocketTracker) (hjson : jsonParses "" = false) :
    ((verifyIntegrity jsonParses tracker).success = true ↔
      ∃ f ∈ tracker.receivedFrames,
        f.payload ≠ "" ∧ frameValid jsonParses f.payload = true) ∧
    (verifyIntegrity jsonParses tracker).totalFrames =
      tracker.receivedFrames.length ∧
    (tracker.receivedFrames = [] →
      (verifyIntegrity jsonParses tracker).success = false ∧
      (verifyIntegrity jsonParses tracker).validFrames = 0) ∧
    (∀ fr, tracker.receivedFrames = [fr] → jsonParses fr.payload = true →
      (verifyIntegrity jsonParses tracker).success = true ∧
      (verifyIntegrity jsonParses tracker).validFrames = 1 ∧
      (verifyIntegrity jsonParses tracker).invalidFrames = 0) := by
  have hvalid_ne : ∀ p, frameValid jsonParses p = true → p ≠ "" := by
    intro p hp hempty
    subst hempty
    rw [frameValid, hjson] at hp
    simp at hp
  refine ⟨?_, rfl, ?_, ?_⟩
  · show (decide (0 < tracker.receivedFrames.countP
        (fun f => frameValid jsonParses f.payload)) = true ↔ _)
    rw [decide_eq_true_eq, List.countP_pos_iff]
    constructor
    · rintro ⟨f, hf, hv⟩
      exact ⟨f, hf, hvalid_ne f.payload hv, hv⟩
    · rintro ⟨f, hf, _, hv⟩
      exact ⟨f, hf, hv⟩
  · intro hempty
    constructor
    · show decide (0 < tracker.receivedFrames.countP _) = false
      rw [hempty]
      rfl
    · show tracker.receivedFrames.countP _ = 0
      rw [hempty]
      rfl
  · intro fr hone hparse
    have hfr : frameValid jsonParses fr.payload = true := by
      rw [frameValid, hparse]
      rfl
    refine ⟨?_, ?_, ?_⟩
    · show decide (0 < tracker.receivedFrames.countP _) = true
      rw [hone]
      simp [List.countP_cons, hfr]
    · show tracker.receivedFrames.countP _ = 1
      rw [hone]
      simp [List.countP_cons, hfr]
    · show tracker.receivedFrames.countP _ = 0
      rw [hone]
      simp [List.countP_cons, hfr]

/-- Witness for C6: the parser accepting exactly the payload of the single
received frame yields `success = true`, `validFrames = 1`,
`invalidFrames = 0`. -/
theorem C6_witness :
    (verifyIntegrity (fun s => s == "\x7b\x7d")
        { createTracker with
          receivedFrames := [⟨"\x7b\x7d", 1⟩] }).success = true ∧
    (verifyIntegrity (fun s => s == "\x7b\x7d")
        { createTracker with
          receivedFrames := [⟨"\x7b\x7d", 1⟩] }).validFrames = 1 ∧
    (verifyIntegrity (fun s => s == "\x7b\x7d")
        { createTracker with
          receivedFrames := [⟨"\x7b\x7d", 1⟩] }).invalidFrames = 0 :=
  (C6_verifyIntegrity_success_iff (fun s => s == "\x7b\x7d")
      { createTracker with receivedFrames := [⟨"\x7b\x7d", 1⟩] }
      (by decide)).2.2.2 ⟨"\x7b\x7d", 1⟩ rfl (by decide)

/-! ## C7: waitForResponse three-tier fallback -/

/-- C7: with `newRecv` the received frames appended between call entry and
the decision point, the timestamp `waitForWebSocketResponse` returns follows
the three-tier fallback — the first newly appended received frame when one
arrived, else the latest pre-existing received frame, else the current
time — and the tracker is handed back exactly as it was at the decision
point: no frame is appended, removed or altered by the call itself. -/
theorem C7_waitForResponse_three_tier_fallback (tracker : WebSocketTracker)
    (newRecv : List WebSocketFrame) (now : Int) :
    (∀ f rest, newRecv = f :: rest →
      (waitForWebSocketResponse
          { tracker with
            receivedFrames := tracker.receivedFrames ++ newRecv }
          tracker.receivedFrames.length now).1 = f.timestamp) ∧
    (newRecv = [] → ∀ f, tracker.receivedFrames.getLast? = some f →
      (waitForWebSocketResponse
          { tracker with
            receivedFrames := tracker.receivedFrames ++ newRecv }
          tracker.receivedFrames.length now).1 = f.timestamp) ∧
    (newRecv = [] → tracker.receivedFrames = [] →
      (waitForWebSocketResponse
          { tracker with
            receivedFrames := tracker.receivedFrames ++ newRecv }
          tracker.receivedFrames.length now).1 = now) ∧
    (waitForWebSocketResponse
        { tracker with
          receivedFrames := tracker.receivedFrames ++ newRecv }
        tracker.receivedFrames.length now).2 =
      { tracker with
        receivedFrames := tracker.receivedFrames ++ newRecv } := by
  refine ⟨?_, ?_, ?_, ?_⟩
  · intro f rest hnew
    subst hnew
    unfold waitForWebSocketResponse
    rw [dif_pos (by simp)]
    simp [List.getElem_append_right]
  · intro hnew f hlast
    subst hnew
    have hlen : 0 < tracker.receivedFrames.length := by
      rcases List.getLast?_eq_some_iff.mp hlast with ⟨ys, hys⟩
      rw [hys]
      simp
    rw [List.getLast?_eq_getElem?] at hlast
    unfold waitForWebSocketResponse
    rw [dif_neg (by simp), dif_pos (by simpa using hlen)]
    have hsome :
        tracker.receivedFrames[tracker.receivedFrames.length - 1]? = some f := by
      simpa using hlast
    rw [List.getElem?_eq_getElem (by omega)] at hsome
    rw [Option.some.injEq] at hsome
    simp only [List.get_eq_getElem, List.append_nil]
    exact congrArg WebSocketFrame.timestamp hsome
  · intro hnew hemp
    subst hnew
    unfold waitForWebSocketResponse
    rw [dif_neg (by simp), dif_neg (by simp [hemp])]
  · unfold waitForWebSocketResponse
    split
    · rfl
    · split
      · rfl
      · rfl

/-- Witness for C7: one pre-existing received frame at time 5 and one frame
appended during the wait at time 9 — the call returns 9 and leaves the
frame log untouched. -/
theorem C7_witness :
    (waitForWebSocketResponse
        { createTracker with
          receivedFrames := [⟨"a", 5⟩, ⟨"b", 9⟩] } 1 99).1 = 9 ∧
    (waitForWebSocketResponse
        { createTracker with
          receivedFrames := [⟨"a", 5⟩, ⟨"b", 9⟩] } 1 99).2 =
      { createTracker with receivedFrames := [⟨"a", 5⟩, ⟨"b", 9⟩] } :=
  ⟨(C7_waitForResponse_three_tier_fallback
      { createTracker with receivedFrames := [⟨"a", 5⟩] }
      [⟨"b", 9⟩] 99).1 ⟨"b", 9⟩ [] rfl,
   (C7_waitForResponse_three_tier_fallback
      { createTracker with receivedFrames := [⟨"a", 5⟩] }
      [⟨"b", 9⟩] 99).2.2.2⟩

/-! ## C8: filter selectivity -/

lemma attached_after_listenerStep (urlFilter : Option UrlFilter)
    (s : MonitorState) (ev : WsEvent) :
    (listenerStep urlFilter s ev).attachedConnections =
        s.attachedConnections ∨
    (listenerStep urlFilter s ev).attachedConnections =
        s.attachedConnections ++ [ev.connId] := by
  cases ev with
  | socketOpened id u t =>
      by_cases hm : filterAccepts urlFilter u = true
      · right
        simp [listenerStep, hm, WsEvent.connId]
      · left
        simp [listenerStep, hm]
  | frameReceived id p t =>
      left
      simp only [listenerStep]
      split <;> rfl
  | frameSent id p t =>
      left
      simp only [listenerStep]
      split <;> rfl
  | close id t =>
      left
      simp only [listenerStep]
      split <;> rfl

lemma listenerStep_nonmatching_noop (f : UrlFilter) (c : Nat)
    (s : MonitorState) (ev : WsEvent) (hid : ev.connId = c)
    (hop : opensMatching f c ev = false)
    (hc : c ∉ s.attachedConnections) :
    listenerStep (some f) s ev = s := by
  cases ev with
  | socketOpened id u t =>
      simp only [WsEvent.connId] at hid
      subst hid
      simp only [opensMatching, beq_self_eq_true, Bool.true_and] at hop
      simp [listenerStep, filterAccepts, hop]
  | frameReceived id p t =>
      simp only [WsEvent.connId] at hid
      subst hid
      simp [listenerStep, hc]
  | frameSent id p t =>
      simp only [WsEvent.connId] at hid
      subst hid
      simp [listenerStep, hc]
  | close id t =>
      simp only [WsEvent.connId] at hid
      subst hid
      simp [listenerStep, hc]

lemma processTrace_ignores_filtered_conn (f : UrlFilter) (c : Nat) :
    ∀ (trace : List WsEvent) (s : MonitorState),
      (∀ ev ∈ trace, opensMatching f c ev = false) →
      c ∉ s.attachedConnections →
      processTrace (some f) s trace =
        processTrace (some f) s (trace.filter (fun ev => ev.connId != c)) := by
  intro trace
  induction trace with
  | nil => intro s _ _; rfl
  | cons ev rest ih =>
      intro s hall hc
      have hev := hall ev (List.mem_cons_self ev rest)
      have hrest : ∀ e ∈ rest, opensMatching f c e = false :=
        fun e he => hall e (List.mem_cons_of_mem _ he)
      by_cases hid : ev.connId = c
      · have hfil : (ev :: rest).filter (fun e => e.connId != c) =
            rest.filter (fun e => e.connId != c) := by
          simp [List.filter_cons, hid]
        rw [hfil]
        have hstep : listenerStep (some f) s ev = s :=
          listenerStep_nonmatching_noop f c s ev hid hev hc
        show processTrace (some f) (listenerStep (some f) s ev) rest = _
        rw [hstep]
        exact ih s hrest hc
      · have hfil : (ev :: rest).filter (fun e => e.connId != c) =
            ev :: rest.filter (fun e => e.connId != c) := by
          simp [List.filter_cons, hid]
        rw [hfil]
        show processTrace (some f) (listenerStep (some f) s ev) rest =
          processTrace (some f) (listenerStep (some f) s ev)
            (rest.filter (fun e => e.connId != c))
        apply ih _ hrest
        intro hmem
        rcases attached_after_listenerStep (some f) s ev with h | h
        · rw [h] at hmem
          exact hc hmem
        · rw [h] at hmem
          rcases List.mem_append.mp hmem with h1 | h1
          · exact hc h1
          · exact hid (List.mem_singleton.mp h1).symm

lemma waitFreshConnection_accepts (tracker : WebSocketTracker)
    (urlFilter : Option UrlFilter) (upcoming : List (Nat × String))
    (establishTime : Int) (ws : Nat × String) (tracker2 : WebSocketTracker)
    (h : waitFreshConnection tracker urlFilter upcoming establishTime =
      some (ws, tracker2)) :
    filterAccepts urlFilter ws.2 = true := by
  unfold waitFreshConnection at h
  cases hfind : upcoming.find? (fun c => filterAccepts urlFilter c.2) with
  | none => rw [hfind] at h; exact absurd h (by simp)
  | some w =>
      rw [hfind] at h
      have hw : w = ws := by
        have := (Option.some.injEq _ _).mp h
        exact congrArg Prod.fst this
      rw [← hw]
      simpa using List.find?_some hfind

/-- C8: a connection whose URL never passes the configured filter contributes
nothing to the tracker — processing the full event trace yields exactly the
state of the trace with every event of that connection removed (so none of
its frames are logged and none of its lifecycle events set any timestamp or
flag) — and `waitForWebSocketConnection` under a filter only ever resolves to
a connection whose URL the filter accepts. -/
theorem C8_filter_selectivity (f : UrlFilter) (trace : List WsEvent) (c : Nat)
    (hNoMatch : ∀ ev ∈ trace, opensMatching f c ev = false) :
    processTrace (some f) initialMonitorState trace =
      processTrace (some f) initialMonitorState
        (trace.filter (fun ev => ev.connId != c)) ∧
    (∀ tracker now upcoming establishTime ws tracker2,
      waitForWebSocketConnection tracker now (some f) upcoming
          establishTime = some (ws, tracker2) →
      f.matches ws.2 = true) := by
  constructor
  · exact processTrace_ignores_filtered_conn f c trace initialMonitorState
      hNoMatch (by simp [initialMonitorState])
  · intro tracker now upcoming establishTime ws tracker2 h
    unfold waitForWebSocketConnection at h
    generalize (if tracker.connectionStartTime = 0 then
        { tracker with connectionStartTime := now } else tracker) = tr at h
    unfold resolveConnection at h
    split at h
    · rename_i cid u hconn hurl
      split at h
      · rename_i hacc
        have hws : ws = (cid, u) := by
          have := (Option.some.injEq _ _).mp h
          exact (congrArg Prod.fst this).symm
        rw [hws]
        simpa [filterAccepts] using hacc
      · exact waitFreshConnection_accepts tr (some f) upcoming establishTime
          ws tracker2 h
    · exact waitFreshConnection_accepts tr (some f) upcoming establishTime
        ws tracker2 h

/-- Witness for C8: two connections open concurrently, only the second
matches the filter `ws/terminal`; the first connection and its frame leave
no trace in the monitor state. -/
theorem C8_witness :
    processTrace (some (.str "ws/terminal")) initialMonitorState
        [.socketOpened 1 "wss://host/other" 1,
         .socketOpened 2 "wss://host/ws/terminal" 2,
         .frameReceived 1 "first" 3, .frameReceived 2 "second" 4] =
      processTrace (some (.str "ws/terminal")) initialMonitorState
        [.socketOpened 2 "wss://host/ws/terminal" 2,
         .frameReceived 2 "second" 4] ∧
    (processTrace (some (.str "ws/terminal")) initialMonitorState
        [.socketOpened 1 "wss://host/other" 1,
         .socketOpened 2 "wss://host/ws/terminal" 2,
         .frameReceived 1 "first" 3,
         .frameReceived 2 "second" 4]).tracker.receivedFrames =
      [⟨"second", 4⟩] := by
  constructor
  · exact (C8_filter_selectivity (.str "ws/terminal")
      [.socketOpened 1 "wss://host/other" 1,
       .socketOpened 2 "wss://host/ws/terminal" 2,
       .frameReceived 1 "first" 3, .frameReceived 2 "second" 4] 1
      (by decide)).1
  · decide

end WebSocketHelpers
